import Mathlib

/-!
Verification of the FreeFlo attestation service against its specification.

The development shallowly embeds the Rust sources:
  * `src/attestation/src/attestation.rs`  (request validation)
  * `src/attestation/src/eip712.rs`       (structured-data signing)
  * `src/attestation/src/config.rs`       (witness address)
  * `src/attestation-service/src/chain.rs` (on-chain intent validation)
  * `src/attestation-service/src/verification.rs` (presentation verification
    and payment-field extraction)

Rust byte slices are modelled as `List Nat` (each entry < 256 by
construction), Rust strings as Lean `String` (the sources only ever treat
ASCII payloads, where Rust byte indices and Lean character indices agree),
`i64`/`u64` as `Int`/`Nat` with explicit wrapping where the source casts,
and fallible code as `Except`/`Option`.  External primitives (keccak-256,
the secp256k1 backend, the TLS-notarization verifier, serde_json) are not
repository code; they are modelled abstractly or from their documented
behaviour, each at the place it is used.
-/

set_option maxRecDepth 10000

/-- Errors of the attestation crate, from `src/attestation/src/error.rs`
(only the payload-free rendering of each variant's data is kept). -/
inductive AttestationError where
  | InvalidPresentation (msg : String)
  | VerificationFailed (msg : String)
  | InvalidPaymentData (msg : String)
  | ServerNotFound
  | TranscriptNotFound
  | UnexpectedServer (expected : String) (actual : String)
  | MissingField (field : String)
  | SigningError (msg : String)
  | DeserializationError (msg : String)
  | Internal (msg : String)
deriving DecidableEq, Repr

/-- Payment information extracted from a TLSNotary presentation, from
`src/attestation-service/src/verification.rs` (`VerifiedPayment`). -/
structure VerifiedPayment where
  server_name : String
  timestamp : Nat
  response_body : String
  transaction_id : Option String
  amount_cents : Option Int
  beneficiary_iban : Option String
  status : Option String
deriving DecidableEq, Repr

/-- Request to create an attestation, from
`src/attestation/src/attestation.rs` (`AttestationRequest`). -/
structure AttestationRequest where
  presentation : String
  intent_hash : String
  expected_amount_cents : Int
  expected_beneficiary_iban : String
deriving DecidableEq, Repr

/-- IBAN normalization, from `src/attestation/src/attestation.rs`
(`normalize_iban`): drop whitespace, uppercase.  Uppercasing is done
character by character, which agrees with Rust `to_uppercase` on the ASCII
alphabet IBANs are drawn from. -/
def normalize_iban (iban : String) : String :=
  ⟨(iban.data.filter (fun c => !c.isWhitespace)).map Char.toUpper⟩

/-- The amount block of `validate_payment` ("Check amount matches (only if
expected is non-zero)", `src/attestation/src/attestation.rs` lines 111-123):
an early `return Err(..)` in Rust becomes an `Except.error` here. -/
def amount_check (verified : VerifiedPayment) (request : AttestationRequest) :
    Except AttestationError Unit :=
  if request.expected_amount_cents > 0 then
    match verified.amount_cents with
    | none => .error (AttestationError.MissingField "amount_cents")
    | some actual_amount =>
      if actual_amount ≠ request.expected_amount_cents then
        .error (AttestationError.InvalidPaymentData
          ("Amount mismatch: expected " ++ toString request.expected_amount_cents ++
           " cents, got " ++ toString actual_amount ++ " cents"))
      else .ok ()
  else .ok ()

/-- The IBAN block of `validate_payment` ("Check beneficiary IBAN matches
(only if expected is non-empty)", `src/attestation/src/attestation.rs`
lines 125-139). -/
def iban_check (verified : VerifiedPayment) (request : AttestationRequest) :
    Except AttestationError Unit :=
  if request.expected_beneficiary_iban ≠ "" then
    let expected_iban := normalize_iban request.expected_beneficiary_iban
    match verified.beneficiary_iban with
    | none => .error (AttestationError.MissingField "beneficiary_iban")
    | some actual =>
      let actual_iban := normalize_iban actual
      if expected_iban ≠ actual_iban then
        .error (AttestationError.InvalidPaymentData
          ("IBAN mismatch: expected " ++ expected_iban ++ ", got " ++ actual_iban))
      else .ok ()
  else .ok ()

/-- Request-versus-verified cross-check, from
`src/attestation/src/attestation.rs` (`validate_payment`): the escape hatch,
then the amount block, then the IBAN block, short-circuiting on the first
error exactly as the Rust early returns do. -/
def validate_payment (verified : VerifiedPayment) (request : AttestationRequest) :
    Except AttestationError Unit :=
  -- If expected values are 0/empty, skip validation (for testing)
  if request.expected_amount_cents = 0 && request.expected_beneficiary_iban = "" then
    .ok ()
  else
    amount_check verified request >>= fun _ => iban_check verified request

/-- Equality of `Except` results is decidable; used to settle concrete runs
of the embedded functions by evaluation. -/
instance exceptDecEq {eps alpha : Type} [DecidableEq eps] [DecidableEq alpha] :
    DecidableEq (Except eps alpha) := fun x y =>
  match x, y with
  | .error e, .error f =>
      if h : e = f then isTrue (congrArg Except.error h)
      else isFalse (fun hc => h (Except.error.inj hc))
  | .ok a, .ok b =>
      if h : a = b then isTrue (congrArg Except.ok h)
      else isFalse (fun hc => h (Except.ok.inj hc))
  | .error _, .ok _ => isFalse (fun hc => Except.noConfusion hc)
  | .ok _, .error _ => isFalse (fun hc => Except.noConfusion hc)

/-- The escape-hatch guard of `validate_payment` is off whenever the
expected amount is nonzero or the expected IBAN is nonempty. -/
theorem validate_payment_no_hatch (verified : VerifiedPayment) (request : AttestationRequest)
    (h : ¬(request.expected_amount_cents = 0 ∧ request.expected_beneficiary_iban = "")) :
    validate_payment verified request =
      (amount_check verified request >>= fun _ => iban_check verified request) := by
  unfold validate_payment
  rw [if_neg]
  simpa using h

/-- The amount block errors with `MissingField` when a positive amount is
expected and none was verified. -/
theorem amount_check_missing (verified : VerifiedPayment) (request : AttestationRequest)
    (hpos : request.expected_amount_cents > 0) (hnone : verified.amount_cents = none) :
    amount_check verified request = .error (AttestationError.MissingField "amount_cents") := by
  unfold amount_check
  rw [if_pos hpos, hnone]

/-- The amount block errors with `InvalidPaymentData` on a mismatching
verified amount. -/
theorem amount_check_mismatch (verified : VerifiedPayment) (request : AttestationRequest)
    (a : Int) (hpos : request.expected_amount_cents > 0) (hsome : verified.amount_cents = some a)
    (hne : a ≠ request.expected_amount_cents) :
    amount_check verified request = .error (AttestationError.InvalidPaymentData
      ("Amount mismatch: expected " ++ toString request.expected_amount_cents ++
       " cents, got " ++ toString a ++ " cents")) := by
  unfold amount_check
  rw [if_pos hpos, hsome]
  simp [hne]

/-- The amount block passes when no positive amount is expected or the
verified amount agrees. -/
theorem amount_check_pass (verified : VerifiedPayment) (request : AttestationRequest)
    (h : request.expected_amount_cents ≤ 0 ∨
         verified.amount_cents = some request.expected_amount_cents) :
    amount_check verified request = .ok () := by
  unfold amount_check
  rcases h with h | h
  · rw [if_neg (by omega)]
  · split
    · rw [h]; simp
    · rfl

/-- The IBAN block errors with `MissingField` when an IBAN is expected and
none was verified. -/
theorem iban_check_missing (verified : VerifiedPayment) (request : AttestationRequest)
    (hne : request.expected_beneficiary_iban ≠ "") (hnone : verified.beneficiary_iban = none) :
    iban_check verified request = .error (AttestationError.MissingField "beneficiary_iban") := by
  unfold iban_check
  rw [if_pos hne, hnone]

/-- The IBAN block errors with `InvalidPaymentData` when the normalized
IBANs differ. -/
theorem iban_check_mismatch (verified : VerifiedPayment) (request : AttestationRequest)
    (i : String) (hexp : request.expected_beneficiary_iban ≠ "")
    (hsome : verified.beneficiary_iban = some i)
    (hne : normalize_iban request.expected_beneficiary_iban ≠ normalize_iban i) :
    iban_check verified request = .error (AttestationError.InvalidPaymentData
      ("IBAN mismatch: expected " ++ normalize_iban request.expected_beneficiary_iban ++
       ", got " ++ normalize_iban i)) := by
  unfold iban_check
  rw [if_pos hexp, hsome]
  simp [hne]

/-- C2 (counterexample): the claim reads the amount guard as "non-zero
expected amount"; the code guards on a strictly positive one.  With
`expected_amount_cents = -1` (non-zero), an empty expected IBAN, and a
verified amount of 42 ≠ -1, `validate_payment` returns `Ok` instead of the
error the claim requires. -/
theorem validate_payment_nonzero_reading_refuted :
    (-1 : Int) ≠ 0 ∧ some (42 : Int) ≠ some (-1 : Int) ∧
    validate_payment
      { server_name := "thirdparty.qonto.com", timestamp := 0, response_body := "",
        transaction_id := none, amount_cents := some 42,
        beneficiary_iban := none, status := none }
      { presentation := "", intent_hash := "", expected_amount_cents := -1,
        expected_beneficiary_iban := "" } = .ok () := by
  refine ⟨by decide, by decide, ?_⟩
  rfl

/-- C2 (amended): for a *strictly positive* expected amount,
`validate_payment` errors unless the verified amount is present and exactly
equal (`MissingField` when absent, `InvalidPaymentData` with both figures on
mismatch); for a non-empty expected IBAN, once the amount block passes, it
errors unless the verified IBAN is present and equal after normalization. -/
theorem validate_payment_checks (v : VerifiedPayment) (r : AttestationRequest) :
    (r.expected_amount_cents > 0 → v.amount_cents = none →
      validate_payment v r = .error (AttestationError.MissingField "amount_cents")) ∧
    (∀ a : Int, r.expected_amount_cents > 0 → v.amount_cents = some a →
      a ≠ r.expected_amount_cents →
      validate_payment v r = .error (AttestationError.InvalidPaymentData
        ("Amount mismatch: expected " ++ toString r.expected_amount_cents ++
         " cents, got " ++ toString a ++ " cents"))) ∧
    (r.expected_beneficiary_iban ≠ "" →
      (r.expected_amount_cents ≤ 0 ∨ v.amount_cents = some r.expected_amount_cents) →
      v.beneficiary_iban = none →
      validate_payment v r = .error (AttestationError.MissingField "beneficiary_iban")) ∧
    (∀ i : String, r.expected_beneficiary_iban ≠ "" →
      (r.expected_amount_cents ≤ 0 ∨ v.amount_cents = some r.expected_amount_cents) →
      v.beneficiary_iban = some i →
      normalize_iban r.expected_beneficiary_iban ≠ normalize_iban i →
      validate_payment v r = .error (AttestationError.InvalidPaymentData
        ("IBAN mismatch: expected " ++ normalize_iban r.expected_beneficiary_iban ++
         ", got " ++ normalize_iban i))) := by
  refine ⟨?_, ?_, ?_, ?_⟩
  · intro hpos hnone
    rw [validate_payment_no_hatch v r (by intro hc; omega),
        amount_check_missing v r hpos hnone]
    rfl
  · intro a hpos hsome hne
    rw [validate_payment_no_hatch v r (by intro hc; omega),
        amount_check_mismatch v r a hpos hsome hne]
    rfl
  · intro hiban hpass hnone
    rw [validate_payment_no_hatch v r (by intro hc; exact hiban hc.2),
        amount_check_pass v r hpass, iban_check_missing v r hiban hnone]
    rfl
  · intro i hiban hpass hsome hne
    rw [validate_payment_no_hatch v r (by intro hc; exact hiban hc.2),
        amount_check_pass v r hpass, iban_check_mismatch v r i hiban hsome hne]
    rfl

/-- Witness for `validate_payment_checks`: a run with a missing verified
amount, and a run with a normalized-IBAN mismatch. -/
theorem validate_payment_checks_witness :
    validate_payment
      { server_name := "s", timestamp := 0, response_body := "",
        transaction_id := none, amount_cents := none,
        beneficiary_iban := none, status := none }
      { presentation := "", intent_hash := "", expected_amount_cents := 700,
        expected_beneficiary_iban := "" } =
      .error (AttestationError.MissingField "amount_cents") ∧
    validate_payment
      { server_name := "s", timestamp := 0, response_body := "",
        transaction_id := none, amount_cents := none,
        beneficiary_iban := some "de89", status := none }
      { presentation := "", intent_hash := "", expected_amount_cents := 0,
        expected_beneficiary_iban := "fr14" } =
      .error (AttestationError.InvalidPaymentData "IBAN mismatch: expected FR14, got DE89") := by
  constructor
  · exact (validate_payment_checks _ _).1 (by decide) rfl
  · exact (validate_payment_checks _ _).2.2.2 "de89" (by decide) (Or.inl (by decide)) rfl
      (by decide)

/-- C3: a request at the documented zero/empty defaults skips the
amount/IBAN cross-check entirely; `validate_payment` returns `Ok` no matter
what the verified payment holds. -/
theorem validate_payment_escape_hatch (v : VerifiedPayment) (r : AttestationRequest)
    (hamt : r.expected_amount_cents = 0) (hiban : r.expected_beneficiary_iban = "") :
    validate_payment v r = .ok () := by
  unfold validate_payment
  rw [if_pos]
  simp [hamt, hiban]

/-- Witness for `validate_payment_escape_hatch`: the verified amount and
IBAN both differ from the request's expectations, yet the run is accepted. -/
theorem validate_payment_escape_hatch_witness :
    validate_payment
      { server_name := "s", timestamp := 0, response_body := "",
        transaction_id := some "tx-9", amount_cents := some 99999,
        beneficiary_iban := some "DE89370400440532013000", status := none }
      { presentation := "", intent_hash := "", expected_amount_cents := 0,
        expected_beneficiary_iban := "" } = .ok () :=
  validate_payment_escape_hatch _ _ rfl rfl

/-- C10: with a strictly negative `expected_amount_cents` the amount
comparison never runs: the result is `Ok` when no IBAN is expected, and in
general does not depend on the verified amount at all. -/
theorem validate_payment_negative_expected (v : VerifiedPayment) (r : AttestationRequest)
    (hneg : r.expected_amount_cents < 0) :
    (r.expected_beneficiary_iban = "" → validate_payment v r = .ok ()) ∧
    (∀ x : Option Int,
      validate_payment { v with amount_cents := x } r = validate_payment v r) := by
  constructor
  · intro hiban
    rw [validate_payment_no_hatch v r (by intro hc; omega),
        amount_check_pass v r (Or.inl (by omega))]
    unfold iban_check
    rw [if_neg (by simpa using hiban)]
    rfl
  · intro x
    rw [validate_payment_no_hatch _ r (by intro hc; omega),
        validate_payment_no_hatch v r (by intro hc; omega),
        amount_check_pass _ r (Or.inl (by omega)),
        amount_check_pass v r (Or.inl (by omega))]
    rfl

/-- Witness for `validate_payment_negative_expected`: a negative expected
amount with a wildly different verified amount is accepted. -/
theorem validate_payment_negative_expected_witness :
    validate_payment
      { server_name := "s", timestamp := 0, response_body := "",
        transaction_id := none, amount_cents := some 123456,
        beneficiary_iban := none, status := none }
      { presentation := "", intent_hash := "", expected_amount_cents := -5,
        expected_beneficiary_iban := "" } = .ok () :=
  (validate_payment_negative_expected _ _ (by decide)).1 rfl

/-- On-chain intent status, from `src/attestation-service/src/chain.rs`
(`IntentStatus`, matching OffRampV3.IntentStatus). -/
inductive IntentStatus where
  | None
  | PendingQuote
  | Committed
  | Fulfilled
  | Cancelled
  | Expired
deriving DecidableEq, Repr

/-- Conversion from a status byte, from `impl From<u8> for IntentStatus` in
`src/attestation-service/src/chain.rs`. -/
def IntentStatus.fromU8 (v : Nat) : IntentStatus :=
  match v with
  | 1 => .PendingQuote
  | 2 => .Committed
  | 3 => .Fulfilled
  | 4 => .Cancelled
  | 5 => .Expired
  | _ => .None

/-- The rendering of a status used in the rejection message, mirroring the
derived Rust `Debug` output interpolated by `format!("... {:?}", status)`. -/
def IntentStatus.debugStr : IntentStatus → String
  | .None => "None"
  | .PendingQuote => "PendingQuote"
  | .Committed => "Committed"
  | .Fulfilled => "Fulfilled"
  | .Cancelled => "Cancelled"
  | .Expired => "Expired"

/-- Intent data fetched from chain, from `src/attestation-service/src/chain.rs`
(`OnChainIntent`).  Addresses are 20-byte lists; `amount` is the U256 value. -/
structure OnChainIntent where
  owner : List Nat
  solver : List Nat
  amount : Nat
  status : IntentStatus
deriving DecidableEq, Repr

/-- The 20-byte zero address (`Address::ZERO`). -/
def zeroAddress : List Nat := List.replicate 20 0

/-- Value of one hexadecimal digit, as accepted by the Rust `hex` crate. -/
def hexVal (c : Char) : Option Nat :=
  if '0' ≤ c ∧ c ≤ '9' then some (c.toNat - '0'.toNat)
  else if 'a' ≤ c ∧ c ≤ 'f' then some (c.toNat - 'a'.toNat + 10)
  else if 'A' ≤ c ∧ c ≤ 'F' then some (c.toNat - 'A'.toNat + 10)
  else none

/-- Model of `hex::decode`: two hex digits per byte, failing on an odd-length
input or a non-hex character. -/
def hexDecodeList : List Char → Option (List Nat)
  | [] => some []
  | [_] => none
  | c1 :: c2 :: rest => do
      let h ← hexVal c1
      let l ← hexVal c2
      let tail ← hexDecodeList rest
      pure ((16 * h + l) :: tail)

/-- Model of `str::trim_start_matches("0x")`: every leading `0x` occurrence
is stripped, not just the first. -/
def trimStart0x : List Char → List Char
  | '0' :: 'x' :: rest => trimStart0x rest
  | l => l

/-- Rust slice `l[start..stop]` on byte lists. -/
def listSlice (l : List Nat) (start stop : Nat) : List Nat :=
  (l.drop start).take (stop - start)

/-- Big-endian bytes to an unsigned integer (`U256::from_be_slice`). -/
def beToNat (bytes : List Nat) : Nat :=
  bytes.foldl (fun acc b => 256 * acc + b) 0

/-- Reinterpretation of an unsigned value as an `i64` (the Rust
`as i64` cast): keep the low 64 bits, two's complement signed. -/
def toSigned64 (x : Nat) : Int :=
  let y : Nat := x % (2 ^ 64)
  if y < 2 ^ 63 then (y : Int) else (y : Int) - (2 : Int) ^ 64

/-- Outcome of one JSON-RPC round trip, the abstraction boundary for the
`reqwest` transport in `src/attestation-service/src/chain.rs` (`eth_call`):
the send can fail, the response can fail to parse as a `JsonRpcResponse`,
or an envelope with optional `error` and `result` fields arrives. -/
inductive RpcOutcome where
  | sendFailure (msg : String)
  | parseFailure (msg : String)
  | envelope (error : Option String) (result : Option String)
deriving DecidableEq, Repr

/-- Envelope handling of `ChainClient::eth_call`
(`src/attestation-service/src/chain.rs` lines 172-211): transport and
JSON-RPC failures become `Err`; a missing or empty `result` decodes to no
bytes; otherwise the `0x`-stripped result is hex-decoded.  The request
building (target contract, call data) feeds only the abstracted transport. -/
def eth_call (o : RpcOutcome) : Except String (List Nat) :=
  match o with
  | .sendFailure m => .error ("RPC request failed: " ++ m)
  | .parseFailure m => .error ("Failed to parse RPC response: " ++ m)
  | .envelope (some err) _ => .error ("RPC error: " ++ err)
  | .envelope none result =>
    let result_hex := trimStart0x (result.getD "").data
    if result_hex.isEmpty then .ok []
    else
      match hexDecodeList result_hex with
      | some bytes => .ok bytes
      | none => .error "Failed to decode result: invalid hex"

/-- Model of `ChainClient::get_intent` (`src/attestation-service/src/chain.rs` lines
87-141), with the RPC round trip abstracted into its outcome.  The call
data `f13c46aa ++ intent_hash` only feeds the transport and does not affect
decoding.  A response below the 288-byte schema minimum, or whose decoded
depositor is the zero address, is `Ok none` (NotFound). -/
def get_intent (o : RpcOutcome) : Except String (Option OnChainIntent) :=
  match eth_call o with
  | .error e => .error e
  | .ok result =>
    if result.length < 288 then
      -- Intent does not exist or empty response
      .ok none
    else
      let base := 32
      let depositor := listSlice result (base + 12) (base + 32)
      let usdc_amount := beToNat (listSlice result (base + 32) (base + 64))
      let status := IntentStatus.fromU8 (result.getD (base + 96 + 31) 0)
      let selected_solver := listSlice result (base + 192 + 12) (base + 224)
      if depositor = zeroAddress then
        .ok none
      else
        .ok (some { owner := depositor, solver := selected_solver,
                    amount := usdc_amount, status := status })

/-- Model of `ChainClient::is_solver_authorized` (`src/attestation-service/src/chain.rs`
lines 145-169): the result word's last byte is the boolean. -/
def is_solver_authorized (o : RpcOutcome) (solver : String) : Except String Bool :=
  match hexDecodeList (trimStart0x solver.data) with
  | none => .error "Invalid solver address: invalid hex"
  | some solver_bytes =>
    if solver_bytes.length ≠ 20 then .error "Solver address must be 20 bytes"
    else
      match eth_call o with
      | .error e => .error e
      | .ok result =>
        if result.length < 32 then .ok false
        else .ok (result.getD 31 0 != 0)

/-- Lowercase hex rendering of a byte list (the embedding prints addresses
in plain hex where alloy would use checksummed hex; no claim depends on the
message text of the solver-mismatch error). -/
def hexEncode (bytes : List Nat) : String :=
  ⟨bytes.foldr (fun b acc =>
    (Nat.digitChar (b / 16 % 16)) :: (Nat.digitChar (b % 16)) :: acc) []⟩

/-- The solver assignment check of `validate_intent`
(`src/attestation-service/src/chain.rs` lines 241-253).  `Address::from_slice`
panics when the decoded request address is not 20 bytes long; the panic is
modelled as a distinguished error. -/
def solver_match_check (intent : OnChainIntent) (solver_address : String) :
    Except String Unit :=
  if intent.solver ≠ zeroAddress then
    match hexDecodeList (trimStart0x solver_address.data) with
    | none => .error "Invalid solver address: invalid hex"
    | some solver_bytes =>
      if solver_bytes.length ≠ 20 then
        .error "panic: Address::from_slice expects 20 bytes"
      else if intent.solver ≠ solver_bytes then
        .error ("Solver mismatch: intent assigned to 0x" ++ hexEncode intent.solver ++
                ", request from " ++ solver_address)
      else .ok ()
  else .ok ()

/-- The authorization check of `validate_intent`
(`src/attestation-service/src/chain.rs` lines 255-260). -/
def authorization_check (auth_call : RpcOutcome) (solver_address : String) :
    Except String Unit :=
  match is_solver_authorized auth_call solver_address with
  | .error e => .error e
  | .ok true => .ok ()
  | .ok false => .error ("Solver " ++ solver_address ++ " is not authorized")

/-- The amount block of `validate_intent`
(`src/attestation-service/src/chain.rs` lines 262-274).  The source compares
`intent.amount` (cast `u128` then `as i64`) with the claimed cents, but on a
difference it only emits a `debug!` log — both branches fall through to
success; no rejection is ever produced here. -/
def intent_amount_block (intent : OnChainIntent) (expected_amount_cents : Int) :
    Except String Unit :=
  let intent_amount_cents := toSigned64 intent.amount
  if expected_amount_cents > 0 ∧ intent_amount_cents ≠ expected_amount_cents then
    -- "Allow some flexibility ... Just log a warning for now" (debug! only)
    .ok ()
  else .ok ()

/-- Model of `validate_intent` (`src/attestation-service/src/chain.rs` lines 215-277):
existence, Committed status, solver assignment, authorization, then the
log-only amount block, short-circuiting on the first error. -/
def validate_intent (intent_call auth_call : RpcOutcome) (solver_address : String)
    (expected_amount_cents : Int) : Except String Unit :=
  match get_intent intent_call with
  | .error e => .error e
  | .ok Option.none => .error "Intent does not exist on-chain"
  | .ok (some intent) =>
    if intent.status ≠ IntentStatus.Committed then
      .error ("Intent is not ready for fulfillment (status: " ++
              intent.status.debugStr ++ ")")
    else
      solver_match_check intent solver_address >>= fun _ =>
      authorization_check auth_call solver_address >>= fun _ =>
      intent_amount_block intent expected_amount_cents

/-- A mocked `getIntent` eth_call result (offset word, depositor
`0x1111…11`, usdcAmount 10000, currency 1, status 2 = Committed, createdAt,
committedAt, zero selectedSolver, selectedRtpn 0, selectedFiatAmount 10000),
in the encoding exercised by `tests/fiat_amount_validation_e2e.rs`. -/
def intentResponseHex : String := "0x00000000000000000000000000000000000000000000000000000000000000200000000000000000000000001111111111111111111111111111111111111111000000000000000000000000000000000000000000000000000000000000271000000000000000000000000000000000000000000000000000000000000000010000000000000000000000000000000000000000000000000000000000000002000000000000000000000000000000000000000000000000000000006553f100000000000000000000000000000000000000000000000000000000006553f164000000000000000000000000000000000000000000000000000000000000000000000000000000000000000000000000000000000000000000000000000000000000000000000000000000000000000000000000000000000000000000002710"

/-- A mocked `authorizedSolvers` eth_call result encoding `true`. -/
def authTrueHex : String := "0x0000000000000000000000000000000000000000000000000000000000000001"

/-- C1: the committed intent above carries an on-chain amount of 10000
cents, the claimed amount is only 9500 cents, the solver is authorized —
and `validate_intent` still returns `Ok`: the amount block of
`src/attestation-service/src/chain.rs` only logs on a mismatch and never
rejects, contradicting the repository's own
`tests/fiat_amount_validation_e2e.rs`, which requires underpayment to be
rejected with "Amount mismatch: proof shows 9500 cents paid, but solver
committed to 10000 cents on-chain". -/
theorem validate_intent_underpayment_accepted :
    get_intent (RpcOutcome.envelope none (some intentResponseHex)) =
      .ok (some { owner := List.replicate 20 17, solver := List.replicate 20 0,
                  amount := 10000, status := IntentStatus.Committed }) ∧
    (9500 : Int) < 10000 ∧
    validate_intent (RpcOutcome.envelope none (some intentResponseHex))
      (RpcOutcome.envelope none (some authTrueHex))
      "0x2222222222222222222222222222222222222222" 9500 = .ok () := by
  refine ⟨by decide, by decide, by decide⟩

/-- C8: `get_intent` answers NotFound (`Ok none`) exactly for a decoded
response below the 288-byte schema minimum or one whose depositor word is
the zero address, while transport failures, envelope-parse failures and
JSON-RPC `error` fields surface as `Err` — never as NotFound. -/
theorem get_intent_notfound_vs_error :
    (∀ (o : RpcOutcome) (bytes : List Nat), eth_call o = .ok bytes →
      bytes.length < 288 → get_intent o = .ok none) ∧
    (∀ (o : RpcOutcome) (bytes : List Nat), eth_call o = .ok bytes →
      288 ≤ bytes.length → listSlice bytes 44 64 = zeroAddress →
      get_intent o = .ok none) ∧
    (∀ m : String, get_intent (RpcOutcome.sendFailure m) =
      .error ("RPC request failed: " ++ m)) ∧
    (∀ m : String, get_intent (RpcOutcome.parseFailure m) =
      .error ("Failed to parse RPC response: " ++ m)) ∧
    (∀ (e : String) (r : Option String), get_intent (RpcOutcome.envelope (some e) r) =
      .error ("RPC error: " ++ e)) := by
  refine ⟨?_, ?_, fun m => rfl, fun m => rfl, fun e r => rfl⟩
  · intro o bytes heth hlen
    unfold get_intent
    rw [heth]
    simp [hlen]
  · intro o bytes heth hlen hzero
    unfold get_intent
    rw [heth]
    simp only [if_neg (by omega : ¬bytes.length < 288)]
    simp [hzero]

/-- Witness for `get_intent_notfound_vs_error`: a one-byte response and an
all-zero 320-byte response both decode to NotFound; a JSON-RPC error field
surfaces as `Err`. -/
theorem get_intent_notfound_vs_error_witness :
    get_intent (RpcOutcome.envelope none (some "0x00")) = .ok none ∧
    get_intent (RpcOutcome.envelope none (some ⟨'0' :: 'x' :: List.replicate 640 '0'⟩)) =
      .ok none ∧
    get_intent (RpcOutcome.envelope (some "execution reverted") none) =
      .error ("RPC error: " ++ "execution reverted") := by
  refine ⟨?_, ?_, ?_⟩
  · exact get_intent_notfound_vs_error.1 _ [0] (by decide) (by decide)
  · exact get_intent_notfound_vs_error.2.1 _ (List.replicate 320 0) (by decide) (by decide)
      (by decide)
  · exact get_intent_notfound_vs_error.2.2.2.2 "execution reverted" none

/-- The opening-brace character, written via its code point. -/
def lbraceChar : Char := Char.ofNat 123

/-- The closing-brace character, written via its code point. -/
def rbraceChar : Char := Char.ofNat 125

/-- JSON values as produced by `serde_json::Value`.  A number keeps the
exact decimal it was written as — `isInt` records whether the literal had
neither fraction nor exponent (serde then stores `i64`/`u64`), and its
value is `mantissa / 10 ^ scale`.  Binary-float rounding of `f64` is not
modelled; every number the theorems touch is exactly representable. -/
inductive Json where
  | null
  | bool (b : Bool)
  | num (isInt : Bool) (mantissa : Int) (scale : Nat)
  | str (s : String)
  | arr (elems : List Json)
  | obj (fields : List (String × Json))

/-- JSON whitespace accepted between tokens. -/
def jsonWs (c : Char) : Bool :=
  c = ' ' || c = '\t' || c = '\n' || c = '\r'

/-- Drop leading JSON whitespace. -/
def skipWs (l : List Char) : List Char := l.dropWhile jsonWs

/-- Insertion into an object with `BTreeMap::insert` semantics: a duplicate
key replaces the earlier binding. -/
def objInsert (fields : List (String × Json)) (k : String) (v : Json) :
    List (String × Json) :=
  (fields.filter (fun kv => kv.1 ≠ k)) ++ [(k, v)]

/-- Body of a JSON string literal (the opening quote already consumed),
with the standard escapes; raw control characters and lone surrogates are
rejected as serde does. -/
def parseStringBody : List Char → Option (List Char × List Char)
  | [] => none
  | '"' :: rest => some ([], rest)
  | '\\' :: esc =>
    match esc with
    | '"' :: rest => (parseStringBody rest).map (fun p => ('"' :: p.1, p.2))
    | '\\' :: rest => (parseStringBody rest).map (fun p => ('\\' :: p.1, p.2))
    | '/' :: rest => (parseStringBody rest).map (fun p => ('/' :: p.1, p.2))
    | 'b' :: rest => (parseStringBody rest).map (fun p => (Char.ofNat 8 :: p.1, p.2))
    | 'f' :: rest => (parseStringBody rest).map (fun p => (Char.ofNat 12 :: p.1, p.2))
    | 'n' :: rest => (parseStringBody rest).map (fun p => ('\n' :: p.1, p.2))
    | 'r' :: rest => (parseStringBody rest).map (fun p => ('\r' :: p.1, p.2))
    | 't' :: rest => (parseStringBody rest).map (fun p => ('\t' :: p.1, p.2))
    | 'u' :: h1 :: h2 :: h3 :: h4 :: rest => do
      let d1 ← hexVal h1
      let d2 ← hexVal h2
      let d3 ← hexVal h3
      let d4 ← hexVal h4
      let code := ((d1 * 16 + d2) * 16 + d3) * 16 + d4
      if 0xD800 ≤ code ∧ code ≤ 0xDFFF then none
      else (parseStringBody rest).map (fun p => (Char.ofNat code :: p.1, p.2))
    | _ => none
  | c :: rest =>
    if c.toNat < 32 then none
    else (parseStringBody rest).map (fun p => (c :: p.1, p.2))

/-- Value of a list of decimal digits. -/
def digitsToNat (l : List Char) : Nat :=
  l.foldl (fun acc c => 10 * acc + (c.toNat - '0'.toNat)) 0

/-- A JSON number literal: optional minus, an integer part without leading
zeros, optional fraction, optional exponent.  Returns the `Json.num`
fields and the unconsumed remainder. -/
def parseNumberLit (l : List Char) : Option ((Bool × Int × Nat) × List Char) :=
  let (neg, l1) := match l with
    | '-' :: rest => (true, rest)
    | _ => (false, l)
  match l1 with
  | [] => none
  | c :: _ =>
    if !c.isDigit then none
    else
      let (intDigits, l2) :=
        if c = '0' then ([c], l1.tail)
        else (l1.takeWhile Char.isDigit, l1.dropWhile Char.isDigit)
      let (fracDigits, hasFrac, l3) :=
        match l2 with
        | '.' :: rest =>
          let fd := rest.takeWhile Char.isDigit
          (fd, true, rest.dropWhile Char.isDigit)
        | _ => ([], false, l2)
      if hasFrac ∧ fracDigits.isEmpty then none
      else
        let (expVal, hasExp, okExp, l4) :=
          match l3 with
          | 'e' :: rest | 'E' :: rest =>
            let (eneg, r1) := match rest with
              | '-' :: r => (true, r)
              | '+' :: r => (false, r)
              | _ => (false, rest)
            let ed := r1.takeWhile Char.isDigit
            if ed.isEmpty then ((0 : Int), true, false, r1)
            else
              let v : Int := (digitsToNat ed : Nat)
              ((if eneg then -v else v), true, true, r1.dropWhile Char.isDigit)
          | _ => (0, false, true, l3)
        if hasExp ∧ !okExp then none
        else
          let mag : Nat := digitsToNat intDigits * 10 ^ fracDigits.length +
            digitsToNat fracDigits
          let m0 : Int := if neg then -(mag : Int) else (mag : Int)
          let s0 : Nat := fracDigits.length
          let isInt := !hasFrac && !hasExp
          -- fold the exponent into mantissa/scale
          let (m1, s1) :=
            if 0 ≤ expVal then (m0 * 10 ^ expVal.toNat, s0)
            else (m0, s0 + (-expVal).toNat)
          some ((isInt, m1, s1), l4)

mutual

/-- Fueled recursive-descent parser for a JSON value; the fuel exceeds the
input length, so it never runs out on real input. -/
def parseJsonF : Nat → List Char → Option (Json × List Char)
  | 0, _ => none
  | fuel + 1, l =>
    match skipWs l with
    | [] => none
    | c :: rest =>
      if c = '"' then
        (parseStringBody rest).map (fun p => (Json.str ⟨p.1⟩, p.2))
      else if c = lbraceChar then
        parseObjF fuel true (skipWs rest) []
      else if c = '[' then
        parseArrF fuel true (skipWs rest) []
      else if c = 't' then
        match rest with
        | 'r' :: 'u' :: 'e' :: r => some (Json.bool true, r)
        | _ => none
      else if c = 'f' then
        match rest with
        | 'a' :: 'l' :: 's' :: 'e' :: r => some (Json.bool false, r)
        | _ => none
      else if c = 'n' then
        match rest with
        | 'u' :: 'l' :: 'l' :: r => some (Json.null, r)
        | _ => none
      else
        (parseNumberLit (c :: rest)).map
          (fun p => (Json.num p.1.1 p.1.2.1 p.1.2.2, p.2))

/-- Elements of a JSON array after `[`; `first` allows an immediately
closing bracket (but never a trailing comma, as serde). -/
def parseArrF : Nat → Bool → List Char → List Json → Option (Json × List Char)
  | 0, _, _, _ => none
  | fuel + 1, first, l, acc =>
    match l with
    | ']' :: rest => if first then some (Json.arr acc.reverse, rest) else none
    | _ =>
      match parseJsonF fuel l with
      | none => none
      | some (v, r1) =>
        match skipWs r1 with
        | ',' :: r2 => parseArrF fuel false (skipWs r2) (v :: acc)
        | ']' :: r2 => some (Json.arr (v :: acc).reverse, r2)
        | _ => none

/-- Members of a JSON object after the opening brace; duplicate keys are
resolved by `objInsert`. -/
def parseObjF : Nat → Bool → List Char → List (String × Json) →
    Option (Json × List Char)
  | 0, _, _, _ => none
  | fuel + 1, first, l, acc =>
    match l with
    | c :: rest =>
      if c = rbraceChar then
        if first then some (Json.obj acc, rest) else none
      else if c = '"' then
        match parseStringBody rest with
        | none => none
        | some (key, r1) =>
          match skipWs r1 with
          | ':' :: r2 =>
            match parseJsonF fuel r2 with
            | none => none
            | some (v, r3) =>
              let acc1 := objInsert acc ⟨key⟩ v
              match skipWs r3 with
              | ',' :: r4 => parseObjF fuel false (skipWs r4) acc1
              | c2 :: r4 =>
                if c2 = rbraceChar then some (Json.obj acc1, r4) else none
              | [] => none
          | _ => none
      else none
    | [] => none

end

/-- Model of `serde_json::from_str::<Value>`: a full parse of the input,
allowing trailing whitespace but no trailing garbage. -/
def Json.parse (s : String) : Option Json :=
  match parseJsonF (s.data.length + 2) s.data with
  | some (v, rest) => if (skipWs rest).isEmpty then some v else none
  | none => none

/-- Model of `Value::get` with a string key: object lookup, `none` elsewhere. -/
def Json.getKey : Json → String → Option Json
  | .obj fields, k => (fields.find? (fun kv => kv.1 = k)).map (fun kv => kv.2)
  | _, _ => none

/-- Model of `Value::get` with a numeric index: array lookup, `none` elsewhere. -/
def Json.getIdx : Json → Nat → Option Json
  | .arr elems, i => elems.get? i
  | _, _ => none

/-- Model of `Value::as_str`. -/
def Json.asStr : Json → Option String
  | .str s => some s
  | _ => none

/-- Model of `Value::as_i64`: an integer literal in `i64` range. -/
def Json.asI64 : Json → Option Int
  | .num isInt m s =>
    if isInt && s = 0 && decide (-(2 ^ 63) ≤ m) && decide (m < 2 ^ 63) then some m
    else none
  | _ => none

/-- Model of `Value::as_f64` composed with the `(a * 100.0) as i64` conversion of
`parse_payment_details`: the decimal value times 100, truncated toward
zero.  The Rust cast goes through `f64`, whose binary rounding this model
does not reproduce (e.g. Rust yields 28 for the decimal 0.29 where the
exact rational value is 29); no theorem below evaluates this conversion on
a decimal amount. -/
def Json.amountTimes100 : Json → Option Int
  | .num _ m s => some (Int.tdiv (m * 100) ((10 : Int) ^ s))
  | _ => none

/-- Character class `[0-9a-f]` of the UUID regex. -/
def isHexDigitLower (c : Char) : Bool :=
  ('0' ≤ c && c ≤ '9') || ('a' ≤ c && c ≤ 'f')

/-- Exactly `n` characters of class `p`, returning them and the remainder. -/
def takeExact (p : Char → Bool) : Nat → List Char → Option (List Char × List Char)
  | 0, l => some ([], l)
  | _ + 1, [] => none
  | n + 1, c :: rest =>
    if p c then (takeExact p n rest).map (fun pr => (c :: pr.1, pr.2)) else none

/-- One mandatory character. -/
def expectChar (c : Char) : List Char → Option (List Char)
  | x :: rest => if x = c then some rest else none
  | [] => none

/-- Greedily at most `n` characters of class `p`. -/
def takeUpTo (p : Char → Bool) : Nat → List Char → (List Char × List Char)
  | 0, l => ([], l)
  | _ + 1, [] => ([], [])
  | n + 1, c :: rest =>
    if p c then
      let (tk, rm) := takeUpTo p n rest
      (c :: tk, rm)
    else ([], c :: rest)

/-- First position (leftmost) where `m` matches, as the Rust regex `find`
on a pattern without alternation backtracking. -/
def scanFirst (m : List Char → Option (List Char)) : List Char → Option (List Char)
  | [] => m []
  | l@(_ :: rest) =>
    match m l with
    | some r => some r
    | none => scanFirst m rest

/-- The UUID pattern
`[0-9a-f]{8}-[0-9a-f]{4}-[0-9a-f]{4}-[0-9a-f]{4}-[0-9a-f]{12}` anchored at
the head of the input. -/
def matchUuidAt (l : List Char) : Option (List Char) := do
  let (s1, l) ← takeExact isHexDigitLower 8 l
  let l ← expectChar '-' l
  let (s2, l) ← takeExact isHexDigitLower 4 l
  let l ← expectChar '-' l
  let (s3, l) ← takeExact isHexDigitLower 4 l
  let l ← expectChar '-' l
  let (s4, l) ← takeExact isHexDigitLower 4 l
  let l ← expectChar '-' l
  let (s5, _) ← takeExact isHexDigitLower 12 l
  pure (s1 ++ '-' :: s2 ++ '-' :: s3 ++ '-' :: s4 ++ '-' :: s5)

/-- Model of `extract_uuid` of `src/attestation-service/src/verification.rs`. -/
def extract_uuid (s : String) : Option String :=
  (scanFirst matchUuidAt s.data).map (fun l => ⟨l⟩)

/-- The IBAN pattern `[A-Z]{2}[0-9]{2}[A-Z0-9]{10,28}` anchored at the head
of the input (the trailing class is greedy and nothing follows it). -/
def matchIbanAt (l : List Char) : Option (List Char) := do
  let (s1, l) ← takeExact (fun c => 'A' ≤ c && c ≤ 'Z') 2 l
  let (s2, l) ← takeExact Char.isDigit 2 l
  let (s3, _) := takeUpTo (fun c => ('A' ≤ c && c ≤ 'Z') || c.isDigit) 28 l
  if s3.length < 10 then none else pure (s1 ++ s2 ++ s3)

/-- Model of `extract_iban` of `src/attestation-service/src/verification.rs`. -/
def extract_iban (s : String) : Option String :=
  (scanFirst matchIbanAt s.data).map (fun l => ⟨l⟩)

/-- The amount pattern `(\d+)\.?(\d{0,2})` anchored at the head of the
input, returning the matched text: the greedy digit run, an optional dot,
then at most two further digits. -/
def matchAmountAt (l : List Char) : Option (List Char) :=
  match l.takeWhile Char.isDigit with
  | [] => none
  | d1 =>
    let l1 := l.dropWhile Char.isDigit
    match l1 with
    | '.' :: rest =>
      let (d2, _) := takeUpTo Char.isDigit 2 rest
      some (d1 ++ '.' :: d2)
    | _ => some d1

/-- Model of `extract_amount` of `src/attestation-service/src/verification.rs`: a
decimal match is parsed as a float and scaled to cents (modelled exactly);
an integer match is taken as cents already, failing on `i64` overflow as
`str::parse::<i64>` does. -/
def extract_amount (s : String) : Option Int :=
  (scanFirst matchAmountAt s.data).bind (fun amount_chars =>
    if amount_chars.contains '.' then
      let d1 := amount_chars.takeWhile Char.isDigit
      let d2 := (amount_chars.dropWhile Char.isDigit).drop 1
      some ((digitsToNat d1 : Int) * 100 + (digitsToNat d2 : Int) * 10 ^ (2 - d2.length))
    else
      if (digitsToNat amount_chars : Int) < 2 ^ 63 then
        some (digitsToNat amount_chars : Int)
      else none)

/-- First index at which `pat` occurs in the input (`str::find` with a
string pattern). -/
def findSubIdx (pat : List Char) : List Char → Option Nat
  | [] => if List.isPrefixOf pat [] then some 0 else none
  | l@(_ :: rest) =>
    if List.isPrefixOf pat l then some 0
    else (findSubIdx pat rest).map (fun i => i + 1)

/-- Rust `str::contains`: the needle occurs somewhere in the haystack. -/
def containsSub (haystack needle : String) : Bool :=
  (findSubIdx needle.data haystack.data).isSome

/-- Index of the last occurrence of a character (`str::rfind`). -/
def rfindIdx (c : Char) (l : List Char) : Option Nat :=
  (l.reverse.findIdx? (fun x => x = c)).map (fun i => l.length - 1 - i)

/-- The splitting loop of `extract_visible_content`
(`src/attestation-service/src/verification.rs` lines 136-153): cut the body
at each masking sentinel `X`, collecting the maximal sentinel-free runs
(`cur` holds the current run reversed). -/
def splitVisibleAux : List Char → List Char → List (List Char)
  | [], cur => if cur.isEmpty then [] else [cur.reverse]
  | c :: rest, cur =>
    if c = 'X' then
      if cur.isEmpty then splitVisibleAux rest []
      else cur.reverse :: splitVisibleAux rest []
    else splitVisibleAux rest (c :: cur)

/-- Model of `extract_visible_content`: sentinel-free runs of length at least 3
containing at least one alphanumeric character. -/
def extract_visible_content (body : List Char) : List String :=
  ((splitVisibleAux body []).filter
    (fun s => decide (3 ≤ s.length) && s.any (fun c => c.isAlphanum))).map
    (fun l => ⟨l⟩)

/-- Rust `Debug` escaping of one character as it appears inside the
`{:?}` rendering of a `String` (printable ASCII passes through; the rest
uses named escapes or `\u{..}`). -/
def escapeDebugChar (c : Char) : List Char :=
  if c = '"' then ['\\', '"']
  else if c = '\\' then ['\\', '\\']
  else if c = '\n' then ['\\', 'n']
  else if c = '\r' then ['\\', 'r']
  else if c = '\t' then ['\\', 't']
  else if 32 ≤ c.toNat ∧ c.toNat < 127 then [c]
  else '\\' :: 'u' :: lbraceChar ::
    (Nat.toDigits 16 c.toNat) ++ [rbraceChar]

/-- The `{:?}` rendering of a `Vec<String>`, used by `extract_json_body` to
wrap the visible runs. -/
def debugFormatVec (parts : List String) : String :=
  "[" ++ String.intercalate ", "
    (parts.map (fun s => "\"" ++ (⟨s.data.flatMap escapeDebugChar⟩ : String) ++ "\"")) ++ "]"

/-- The `_visible_content` JSON the fallback of `extract_json_body`
produces: `format!("{{\"_visible_content\": {:?}}}", visible_content)`. -/
def visibleWrapper (parts : List String) : String :=
  (⟨[lbraceChar]⟩ : String) ++ "\"_visible_content\": " ++ debugFormatVec parts ++
    (⟨[rbraceChar]⟩ : String)

/-- The shared tail of `extract_json_body` reached when no full JSON object
is found: visible-content extraction, an error when nothing is visible,
else the `_visible_content` wrapper. -/
def visibleFallback (body : List Char) : Except AttestationError String :=
  let visible_content := extract_visible_content body
  if visible_content.isEmpty then
    .error (AttestationError.InvalidPaymentData "No visible content in response body")
  else
    .ok (visibleWrapper visible_content)

/-- Model of `extract_json_body` (`src/attestation-service/src/verification.rs`
lines 95-133): find the header/body separator, then the span from the
first opening to the last closing brace; fall back to the visible-content
wrapper when either brace is missing. -/
def extract_json_body (response : String) : Except AttestationError String :=
  let sep4 := (findSubIdx ['\r', '\n', '\r', '\n'] response.data).map (fun i => i + 4)
  let sep2 := (findSubIdx ['\n', '\n'] response.data).map (fun i => i + 2)
  match sep4.orElse (fun _ => sep2) with
  | none => .error (AttestationError.InvalidPaymentData "Could not find response body")
  | some body_start =>
    let body := response.data.drop body_start
    match body.findIdx? (fun c => c = lbraceChar) with
    | some json_start =>
      let json_body := body.drop json_start
      match rfindIdx rbraceChar json_body with
      | some json_end => .ok ⟨json_body.take (json_end + 1)⟩
      | none => visibleFallback body
    | none => visibleFallback body

/-- Model of `parse_payment_details` (`src/attestation-service/src/verification.rs`
lines 162-225): a successful serde parse takes the structured path (with
the `_visible_content` marker short-circuiting to all-`none` fields); a
failed parse takes the regex fallback over the raw content. -/
def parse_payment_details (json : String) :
    Except AttestationError (Option String × Option Int × Option String × Option String) :=
  match Json.parse json with
  | some value =>
    if (value.getKey "_visible_content").isSome then
      -- extracted visible content, not proper JSON: return None values
      .ok (none, none, none, none)
    else
      let tx := ((value.getKey "transaction").orElse
          (fun _ => (value.getKey "transactions").bind (fun t => t.getIdx 0))).orElse
          (fun _ => value.getKey "transfer")
      let transaction_id := (tx.bind (fun t => t.getKey "id")).bind Json.asStr
      let amount_cents :=
        ((((tx.bind (fun t => t.getKey "amount_cents")).orElse
            (fun _ => tx.bind (fun t => t.getKey "local_amount_cents"))).bind
            Json.asI64).orElse
          (fun _ => (tx.bind (fun t => t.getKey "amount")).bind Json.amountTimes100)).bind
          (fun v => if v = 0 then none else some v)
      let beneficiary_iban :=
        (((((((tx.bind (fun t => t.getKey "transfer")).bind
              (fun t => t.getKey "counterparty_account_number")).orElse
            (fun _ => (tx.bind (fun t => t.getKey "counterparty")).bind
              (fun c => c.getKey "iban"))).orElse
            (fun _ => (tx.bind (fun t => t.getKey "counterparty")).bind
              (fun c => c.getKey "account_number"))).orElse
            (fun _ => (tx.bind (fun t => t.getKey "beneficiary")).bind
              (fun b => b.getKey "iban"))).orElse
            (fun _ => tx.bind (fun t => t.getKey "beneficiary_iban")))).bind
          Json.asStr
      let status :=
        ((tx.bind (fun t => t.getKey "status")).orElse
          (fun _ => tx.bind (fun t => t.getKey "operation_type"))).bind Json.asStr
      .ok (transaction_id, amount_cents, beneficiary_iban, status)
  | none =>
    -- JSON parsing failed: regex extraction over the raw content
    .ok (extract_uuid json, extract_amount json, extract_iban json, none)

/-- Outcome of `Presentation::verify` plus the deserialization step, the
abstraction boundary for the external TLS-notarization primitive in
`verify_presentation` (modelled from the spec: `verify(presentation,
trust_roots) -> transcript | error`): an optional disclosed server
identity, the connection time, and the optional received transcript after
`set_unauthed(b'X')` masking, read as text. -/
structure PresentationOutput where
  server_name : Option String
  time : Nat
  transcript : Option String
deriving DecidableEq, Repr

/-- Model of `verify_presentation` (`src/attestation-service/src/verification.rs`
lines 34-92) after the opaque cryptographic verification: server identity
and allow-list check first, then transcript extraction, body extraction
and payment-detail parsing. -/
def verify_presentation (out : PresentationOutput) (allowed_servers : List String) :
    Except AttestationError VerifiedPayment :=
  match out.server_name with
  | none => .error AttestationError.ServerNotFound
  | some server_name =>
    if !(allowed_servers.any (fun s => containsSub server_name s)) then
      .error (AttestationError.UnexpectedServer
        (String.intercalate ", " allowed_servers) server_name)
    else
      match out.transcript with
      | none => .error AttestationError.TranscriptNotFound
      | some received =>
        match extract_json_body received with
        | .error e => .error e
        | .ok response_body =>
          match parse_payment_details response_body with
          | .error e => .error e
          | .ok (transaction_id, amount_cents, beneficiary_iban, status) =>
            .ok { server_name := server_name, timestamp := out.time,
                  response_body := response_body, transaction_id := transaction_id,
                  amount_cents := amount_cents, beneficiary_iban := beneficiary_iban,
                  status := status }

/-- C4 (counterexample): the claim requires rejection whenever the
disclosed identity is not a substring of an allow-list entry, but the code
tests the opposite direction (`server_name.contains(entry)`).  The
identity `thirdparty.qonto.com` is not a substring of the sole entry
`qonto.com`, yet verification proceeds past the server check and
succeeds. -/
theorem verify_presentation_substring_direction_refuted :
    containsSub "qonto.com" "thirdparty.qonto.com" = false ∧
    verify_presentation
      { server_name := some "thirdparty.qonto.com", time := 1700000000,
        transcript := some "HTTP/1.1 200 OK\r\n\r\nXXXX019b2249-50b2-7778-8b9e-aabbccddeeffXXab" }
      ["qonto.com"] =
      .ok { server_name := "thirdparty.qonto.com", timestamp := 1700000000,
            response_body :=
              "\x7b\"_visible_content\": [\"019b2249-50b2-7778-8b9e-aabbccddeeff\"]\x7d",
            transaction_id := none, amount_cents := none,
            beneficiary_iban := none, status := none } := by
  refine ⟨by decide, by decide⟩

/-- C4 (amended): `verify_presentation` rejects with `ServerNotFound` when
the identity is missing; with `UnexpectedServer` — before any transcript or
body extraction, whatever the transcript holds — when no allow-list entry
is a substring of the identity; and with `TranscriptNotFound` when the
server check passes but the transcript is missing. -/
theorem verify_presentation_rejections (out : PresentationOutput)
    (allowed_servers : List String) :
    (out.server_name = none →
      verify_presentation out allowed_servers = .error AttestationError.ServerNotFound) ∧
    (∀ id : String, out.server_name = some id →
      (∀ s ∈ allowed_servers, containsSub id s = false) →
      verify_presentation out allowed_servers =
        .error (AttestationError.UnexpectedServer
          (String.intercalate ", " allowed_servers) id)) ∧
    (∀ id : String, out.server_name = some id →
      (∃ s ∈ allowed_servers, containsSub id s = true) →
      out.transcript = none →
      verify_presentation out allowed_servers =
        .error AttestationError.TranscriptNotFound) := by
  refine ⟨?_, ?_, ?_⟩
  · intro hnone
    unfold verify_presentation
    rw [hnone]
  · intro id hid hnosub
    unfold verify_presentation
    rw [hid]
    have hany : allowed_servers.any (fun s => containsSub id s) = false := by
      rw [List.any_eq_false]
      intro s hs
      simp [hnosub s hs]
    simp [hany]
  · intro id hid hsub htr
    unfold verify_presentation
    rw [hid]
    have hany : allowed_servers.any (fun s => containsSub id s) = true := by
      rw [List.any_eq_true]
      obtain ⟨s, hs, hc⟩ := hsub
      exact ⟨s, hs, hc⟩
    simp [hany, htr]

/-- Witness for `verify_presentation_rejections`: an identity matching no
allow-list entry is rejected as `UnexpectedServer` even though a perfectly
extractable transcript is present. -/
theorem verify_presentation_rejections_witness :
    verify_presentation
      { server_name := some "evil.com", time := 0,
        transcript := some "HTTP/1.1 200 OK\r\n\r\n\x7b\"test\": \"value\"\x7d" }
      ["qonto.com"] =
      .error (AttestationError.UnexpectedServer "qonto.com" "evil.com") := by
  have h := (verify_presentation_rejections
    { server_name := some "evil.com", time := 0,
      transcript := some "HTTP/1.1 200 OK\r\n\r\n\x7b\"test\": \"value\"\x7d" }
    ["qonto.com"]).2.1 "evil.com" rfl (by decide)
  simpa using h

/-- C5 (counterexample): a masked body with no JSON object that carries a
UUID-shaped token.  The claim requires the fallback to regex-extract that
token into the returned `VerifiedPayment`, but the pipeline wraps the
visible runs into a `_visible_content` JSON, the wrapper parses, and every
extracted field comes back `none`. -/
theorem extraction_fallback_regex_refuted :
    extract_uuid "XXXX019b2249-50b2-7778-8b9e-aabbccddeeffXXab" =
      some "019b2249-50b2-7778-8b9e-aabbccddeeff" ∧
    verify_presentation
      { server_name := some "thirdparty.qonto.com", time := 1700000000,
        transcript := some "HTTP/1.1 200 OK\r\n\r\nXXXX019b2249-50b2-7778-8b9e-aabbccddeeffXXab" }
      ["thirdparty.qonto.com"] =
      .ok { server_name := "thirdparty.qonto.com", timestamp := 1700000000,
            response_body :=
              "\x7b\"_visible_content\": [\"019b2249-50b2-7778-8b9e-aabbccddeeff\"]\x7d",
            transaction_id := none, amount_cents := none,
            beneficiary_iban := none, status := none } := by
  refine ⟨by decide, by decide⟩

/-- C5 (amended): when the body after the header separator contains no
JSON object — either it has no opening brace at all, or its first opening
brace is never followed by a closing one — `extract_json_body` returns the
`_visible_content` wrapper around the kept visible runs (length ≥ 3, at
least one alphanumeric character); whenever a body string parses as JSON
exposing the `_visible_content` marker, `parse_payment_details` yields
all-`none` fields; and the UUID/IBAN/amount regex extraction runs exactly
in the remaining case, a body string that fails JSON parsing. -/
theorem extraction_fallback_behavior :
    (∀ (response : String) (body_start : Nat),
      (((findSubIdx ['\r', '\n', '\r', '\n'] response.data).map (fun i => i + 4)).orElse
        (fun _ => (findSubIdx ['\n', '\n'] response.data).map (fun i => i + 2))) =
        some body_start →
      ((response.data.drop body_start).findIdx? (fun c => c = lbraceChar) = none ∨
       ∃ json_start : Nat,
         (response.data.drop body_start).findIdx? (fun c => c = lbraceChar) =
           some json_start ∧
         rfindIdx rbraceChar ((response.data.drop body_start).drop json_start) = none) →
      extract_json_body response = visibleFallback (response.data.drop body_start)) ∧
    (∀ (s : String) (v : Json), Json.parse s = some v →
      (v.getKey "_visible_content").isSome →
      parse_payment_details s = .ok (none, none, none, none)) ∧
    (∀ s : String, Json.parse s = none →
      parse_payment_details s =
        .ok (extract_uuid s, extract_amount s, extract_iban s, none)) := by
  refine ⟨?_, ?_, ?_⟩
  · intro response body_start hsep hbrace
    rcases hbrace with hbrace | ⟨json_start, hbr, hrf⟩
    · unfold extract_json_body
      simp only [hsep, hbrace]
    · unfold extract_json_body
      simp only [hsep, hbr, hrf]
  · intro s v hp hvis
    unfold parse_payment_details
    rw [hp]
    simp [hvis]
  · intro s hp
    unfold parse_payment_details
    rw [hp]

/-- Witness for `extraction_fallback_behavior`: the fallback fires on a
concrete braceless body and on a concrete body whose opening brace is
never closed, and the concrete wrapper parses into the marker object whose
fields all come back `none`. -/
theorem extraction_fallback_behavior_witness :
    extract_json_body "HTTP/1.1 200 OK\r\n\r\nXX abc1XX" =
      visibleFallback ("HTTP/1.1 200 OK\r\n\r\nXX abc1XX".data.drop 19) ∧
    extract_json_body "HTTP/1.1 200 OK\r\n\r\nXX\x7bab1XX" =
      visibleFallback ("HTTP/1.1 200 OK\r\n\r\nXX\x7bab1XX".data.drop 19) ∧
    parse_payment_details (visibleWrapper [" abc1"]) = .ok (none, none, none, none) := by
  refine ⟨?_, ?_, ?_⟩
  · exact extraction_fallback_behavior.1 "HTTP/1.1 200 OK\r\n\r\nXX abc1XX" 19
      (by decide) (Or.inl (by decide))
  · exact extraction_fallback_behavior.1 "HTTP/1.1 200 OK\r\n\r\nXX\x7bab1XX" 19
      (by decide) (Or.inr ⟨2, by decide, by decide⟩)
  · exact extraction_fallback_behavior.2.1 (visibleWrapper [" abc1"])
      (Json.obj [("_visible_content", Json.arr [Json.str " abc1"])]) (by rfl) (by rfl)

/-- Rust `str::as_bytes` on the ASCII strings this code signs (UTF-8 of an
ASCII string is its code points). -/
def stringToBytes (s : String) : List Nat := s.data.map Char.toNat

/-- Model of `U256::to_be_bytes::<32>()`: 32 big-endian bytes. -/
def beBytes32 (x : Nat) : List Nat :=
  (List.range 32).map (fun i => x / 256 ^ (31 - i) % 256)

/-- EIP-712 domain for payment attestations, from
`src/attestation/src/eip712.rs` (`AttestationDomain`). -/
structure AttestationDomain where
  name : String
  version : String
  chain_id : Nat
  verifying_contract : List Nat
deriving DecidableEq, Repr

/-- The `Default` impl of `AttestationDomain`: name `WisePaymentVerifier`,
version `1`, Base Sepolia chain id, zero contract. -/
def AttestationDomain.base : AttestationDomain :=
  { name := "WisePaymentVerifier", version := "1", chain_id := 84532,
    verifying_contract := List.replicate 20 0 }

/-- Model of `AttestationDomain::new`: configured chain id and contract over the
default name and version. -/
def AttestationDomain.new (chain_id : Nat) (verifying_contract : List Nat) :
    AttestationDomain :=
  { name := AttestationDomain.base.name, version := AttestationDomain.base.version,
    chain_id := chain_id, verifying_contract := verifying_contract }

/-- Attestation data to be signed, from `src/attestation/src/eip712.rs`
(`AttestationData`). -/
structure AttestationData where
  intent_hash : List Nat
  amount : Nat
  timestamp : Nat
  payment_id : String
  data : List Nat
deriving DecidableEq, Repr

/-- Model of `AttestationDomain::domain_separator`
(`src/attestation/src/eip712.rs` lines 48-68), over an abstract keccak-256
(the hash itself is `alloy_primitives::keccak256`, external code): the
type-hash word, the hashed name and version, the big-endian chain id word,
and the address padded with 12 zero bytes, hashed together. -/
def domain_separator (keccak : List Nat → List Nat) (d : AttestationDomain) : List Nat :=
  let type_hash := keccak (stringToBytes
    "EIP712Domain(string name,string version,uint256 chainId,address verifyingContract)")
  let name_hash := keccak (stringToBytes d.name)
  let version_hash := keccak (stringToBytes d.version)
  keccak (type_hash ++ name_hash ++ version_hash ++ beBytes32 d.chain_id ++
    (List.replicate 12 0 ++ d.verifying_contract))

/-- Model of `AttestationData::struct_hash` (`src/attestation/src/eip712.rs` lines
83-100). -/
def struct_hash (keccak : List Nat → List Nat) (a : AttestationData) : List Nat :=
  let type_hash := keccak (stringToBytes
    "PaymentAttestation(bytes32 intentHash,uint256 amount,uint256 timestamp,string paymentId,bytes32 dataHash)")
  let payment_id_hash := keccak (stringToBytes a.payment_id)
  let data_hash := keccak a.data
  keccak (type_hash ++ a.intent_hash ++ beBytes32 a.amount ++ beBytes32 a.timestamp ++
    payment_id_hash ++ data_hash)

/-- The digest built inside `sign_attestation`
(`src/attestation/src/eip712.rs` lines 113-123): `0x19`, `0x01`, the
domain separator and the struct hash, hashed. -/
def attestation_digest (keccak : List Nat → List Nat) (domain : AttestationDomain)
    (data : AttestationData) : List Nat :=
  keccak (0x19 :: 0x01 :: (domain_separator keccak domain ++ struct_hash keccak data))

/-- The spec-side digest formula of §4.4: `hash(0x19 || 0x01 ||
domain_separator || payload_hash)`; written independently of the code
embedding for the refinement comparison. -/
def spec_digest (keccak : List Nat → List Nat) (ds payload_hash : List Nat) : List Nat :=
  keccak ([0x19, 0x01] ++ ds ++ payload_hash)

/-- The spec-side left-padding of a byte string to 32 bytes. -/
def leftPad32 (l : List Nat) : List Nat := List.replicate (32 - l.length) 0 ++ l

/-- The spec-side domain-separator formula of §4.4: `hash(type_hash ||
hash(name) || hash(version) || be32(chain_id) ||
left_pad32(verifying_contract))`. -/
def spec_domain_separator (keccak : List Nat → List Nat) (d : AttestationDomain) : List Nat :=
  keccak (keccak (stringToBytes
      "EIP712Domain(string name,string version,uint256 chainId,address verifyingContract)") ++
    keccak (stringToBytes d.name) ++ keccak (stringToBytes d.version) ++
    beBytes32 d.chain_id ++ leftPad32 d.verifying_contract)

/-- The recoverable ECDSA signing primitive
(`SigningKey::sign_prehash_recoverable` of the external `k256` crate),
modelled over an abstract scalar field `F` and curve group `Point`: the
RFC 6979 nonce is a function of key and digest, `R = k·G`, `r` the
x-coordinate of `R` carried into the scalar field, `s = k⁻¹(z + r·d)`, and
the recovery bit the parity of `R`'s y-coordinate (the astronomically rare
x-reduced recovery bit and the low-s normalization are not modelled). -/
def ecdsa_sign {F Point : Type} [Field F] [AddCommGroup Point] [Module F Point]
    (g : Point) (xScalar : Point → F) (yParity : Point → Bool)
    (nonce : F → List Nat → F) (hashToScalar : List Nat → F)
    (d : F) (digest : List Nat) : F × F × Bool :=
  let k := nonce d digest
  let R := k • g
  let r := xScalar R
  (r, k⁻¹ * (hashToScalar digest + r * d), yParity R)

/-- Model of `sign_attestation` (`src/attestation/src/eip712.rs` lines 108-137):
compute the digest, sign it, and serialize `r (32) || s (32) || v (1)`
with `v = recovery_id + 27`; returns the pair (signature, digest). -/
def sign_attestation {F Point : Type} [Field F] [AddCommGroup Point] [Module F Point]
    (g : Point) (xScalar : Point → F) (yParity : Point → Bool)
    (nonce : F → List Nat → F) (hashToScalar : List Nat → F)
    (scalarBytes : F → List Nat) (keccak : List Nat → List Nat)
    (domain : AttestationDomain) (data : AttestationData) (signing_key : F) :
    List Nat × List Nat :=
  let digest := attestation_digest keccak domain data
  let rsv := ecdsa_sign g xScalar yParity nonce hashToScalar signing_key digest
  (scalarBytes rsv.1 ++ scalarBytes rsv.2.1 ++ [(if rsv.2.2 then 1 else 0) + 27],
   digest)

/-- Public-key recovery from `(digest, r, s, v)` — modelled from the spec:
the on-chain `ecrecover` reconstructs `R` from `r` and the recovery bit and
returns `r⁻¹·(s·R − z·G)`.  The recovery itself is contract-side code, not
part of this repository. -/
def ecdsa_recover {F Point : Type} [Field F] [AddCommGroup Point] [Module F Point]
    (g : Point) (hashToScalar : List Nat → F) (decodePoint : F → Bool → Point)
    (r s : F) (odd : Bool) (digest : List Nat) : Point :=
  r⁻¹ • (s • decodePoint r odd - hashToScalar digest • g)

/-- An Ethereum address of a public key: keccak-256 of the 64-byte
uncompressed encoding (prefix byte stripped), last 20 bytes — as
`Config::witness_address` computes it (`src/attestation/src/config.rs`
lines 69-81). -/
def pubkey_address {Point : Type} (keccak : List Nat → List Nat)
    (encodePoint : Point → List Nat) (q : Point) : List Nat :=
  (keccak (encodePoint q)).drop 12

/-- Model of `Config::witness_address`: the address of the signing key's public
point `d·G`. -/
def witness_address {F Point : Type} [Field F] [AddCommGroup Point] [Module F Point]
    (g : Point) (keccak : List Nat → List Nat) (encodePoint : Point → List Nat)
    (signing_key : F) : List Nat :=
  pubkey_address keccak encodePoint (signing_key • g)

/-- ECDSA recovery correctness as module algebra: for a signature produced
by `ecdsa_sign` with nonzero nonce and nonzero `r`, and a point decoding
that returns the nonce point, recovery yields the public key `d·G`. -/
theorem ecdsa_recover_of_sign {F Point : Type} [Field F] [AddCommGroup Point]
    [Module F Point] (g : Point) (xScalar : Point → F) (yParity : Point → Bool)
    (nonce : F → List Nat → F) (hashToScalar : List Nat → F)
    (decodePoint : F → Bool → Point) (d : F) (digest : List Nat)
    (hk : nonce d digest ≠ 0)
    (hr : xScalar (nonce d digest • g) ≠ 0)
    (hdec : decodePoint (xScalar (nonce d digest • g)) (yParity (nonce d digest • g)) =
      nonce d digest • g) :
    ecdsa_recover g hashToScalar decodePoint
      (ecdsa_sign g xScalar yParity nonce hashToScalar d digest).1
      (ecdsa_sign g xScalar yParity nonce hashToScalar d digest).2.1
      (ecdsa_sign g xScalar yParity nonce hashToScalar d digest).2.2
      digest = d • g := by
  unfold ecdsa_recover ecdsa_sign
  simp only []
  set k := nonce d digest with hkdef
  set z := hashToScalar digest with hzdef
  set r := xScalar (k • g) with hrdef
  rw [hdec]
  rw [smul_smul]
  have h1 : k⁻¹ * (z + r * d) * k = z + r * d := by
    field_simp
  rw [h1, ← sub_smul, add_sub_cancel_left, smul_smul, ← mul_assoc,
    inv_mul_cancel₀ hr, one_mul]

/-- C6: the digest `sign_attestation` signs is exactly the spec formula
`hash(0x19 || 0x01 || domain_separator || struct_hash)`, and the code's
domain separator agrees with the spec formula `hash(type_hash || hash(name)
|| hash(version) || be32(chain_id) || left_pad32(verifying_contract))` for
a 20-byte verifying contract, for every hash function and every input. -/
theorem sign_attestation_digest_spec {F Point : Type} [Field F] [AddCommGroup Point]
    [Module F Point] (g : Point) (xScalar : Point → F) (yParity : Point → Bool)
    (nonce : F → List Nat → F) (hashToScalar : List Nat → F)
    (scalarBytes : F → List Nat) (keccak : List Nat → List Nat)
    (domain : AttestationDomain) (data : AttestationData) (signing_key : F)
    (hlen : domain.verifying_contract.length = 20) :
    (sign_attestation g xScalar yParity nonce hashToScalar scalarBytes keccak
        domain data signing_key).2 =
      spec_digest keccak (domain_separator keccak domain) (struct_hash keccak data) ∧
    domain_separator keccak domain = spec_domain_separator keccak domain := by
  constructor
  · rfl
  · unfold domain_separator spec_domain_separator leftPad32
    rw [hlen]

/-- Witness for `sign_attestation_digest_spec`: a concrete toy
instantiation (scalars and points in `ℚ`, the hash recording only the
input length) with the default 20-byte zero contract. -/
theorem sign_attestation_digest_spec_witness :
    (sign_attestation (1 : ℚ) id (fun _ => false) (fun _ _ => 1) (fun _ => 1)
        (fun _ => List.replicate 32 0) (fun l => [l.length])
        AttestationDomain.base
        { intent_hash := List.replicate 32 0, amount := 10000,
          timestamp := 1700000000, payment_id := "tx-123", data := [1, 2, 3] }
        2).2 =
      spec_digest (fun l => [l.length])
        (domain_separator (fun l => [l.length]) AttestationDomain.base)
        (struct_hash (fun l => [l.length])
          { intent_hash := List.replicate 32 0, amount := 10000,
            timestamp := 1700000000, payment_id := "tx-123", data := [1, 2, 3] }) ∧
    domain_separator (fun l => [l.length]) AttestationDomain.base =
      spec_domain_separator (fun l => [l.length]) AttestationDomain.base :=
  sign_attestation_digest_spec (1 : ℚ) id (fun _ => false) (fun _ _ => 1) (fun _ => 1)
    (fun _ => List.replicate 32 0) (fun l => [l.length]) AttestationDomain.base
    { intent_hash := List.replicate 32 0, amount := 10000,
      timestamp := 1700000000, payment_id := "tx-123", data := [1, 2, 3] }
    2 (by simp [AttestationDomain.base])

/-- C7: every produced signature is `scalarBytes r ++ scalarBytes s ++ [v]`
— 65 bytes with 32-byte `r` and `s` — where `v = recovery_id + 27` lies in
\x7b27, 28\x7d, and recovering the public key from `(digest, r, s, v)` and
hashing it yields the witness address of the signing key. -/
theorem sign_attestation_layout_recovery {F Point : Type} [Field F] [AddCommGroup Point]
    [Module F Point] (g : Point) (xScalar : Point → F) (yParity : Point → Bool)
    (nonce : F → List Nat → F) (hashToScalar : List Nat → F)
    (scalarBytes : F → List Nat) (encodePoint : Point → List Nat)
    (decodePoint : F → Bool → Point) (keccak : List Nat → List Nat)
    (domain : AttestationDomain) (data : AttestationData) (d : F)
    (hbytes : ∀ x : F, (scalarBytes x).length = 32)
    (hk : nonce d (attestation_digest keccak domain data) ≠ 0)
    (hr : xScalar (nonce d (attestation_digest keccak domain data) • g) ≠ 0)
    (hdec : decodePoint
        (xScalar (nonce d (attestation_digest keccak domain data) • g))
        (yParity (nonce d (attestation_digest keccak domain data) • g)) =
      nonce d (attestation_digest keccak domain data) • g) :
    (sign_attestation g xScalar yParity nonce hashToScalar scalarBytes keccak
        domain data d).1 =
      scalarBytes (ecdsa_sign g xScalar yParity nonce hashToScalar d
          (attestation_digest keccak domain data)).1 ++
      scalarBytes (ecdsa_sign g xScalar yParity nonce hashToScalar d
          (attestation_digest keccak domain data)).2.1 ++
      [(if (ecdsa_sign g xScalar yParity nonce hashToScalar d
          (attestation_digest keccak domain data)).2.2 then 1 else 0) + 27] ∧
    (sign_attestation g xScalar yParity nonce hashToScalar scalarBytes keccak
        domain data d).1.length = 65 ∧
    ((sign_attestation g xScalar yParity nonce hashToScalar scalarBytes keccak
        domain data d).1.drop 64 = [27] ∨
     (sign_attestation g xScalar yParity nonce hashToScalar scalarBytes keccak
        domain data d).1.drop 64 = [28]) ∧
    pubkey_address keccak encodePoint
      (ecdsa_recover g hashToScalar decodePoint
        (ecdsa_sign g xScalar yParity nonce hashToScalar d
          (attestation_digest keccak domain data)).1
        (ecdsa_sign g xScalar yParity nonce hashToScalar d
          (attestation_digest keccak domain data)).2.1
        (ecdsa_sign g xScalar yParity nonce hashToScalar d
          (attestation_digest keccak domain data)).2.2
        (attestation_digest keccak domain data)) =
      witness_address g keccak encodePoint d := by
  refine ⟨rfl, ?_, ?_, ?_⟩
  · simp [sign_attestation, hbytes]
  · have hl : (scalarBytes (ecdsa_sign g xScalar yParity nonce hashToScalar d
        (attestation_digest keccak domain data)).1 ++
        scalarBytes (ecdsa_sign g xScalar yParity nonce hashToScalar d
          (attestation_digest keccak domain data)).2.1).length = 64 := by
      simp [hbytes]
    have h1 : (sign_attestation g xScalar yParity nonce hashToScalar scalarBytes keccak
        domain data d).1 =
        scalarBytes (ecdsa_sign g xScalar yParity nonce hashToScalar d
          (attestation_digest keccak domain data)).1 ++
        scalarBytes (ecdsa_sign g xScalar yParity nonce hashToScalar d
          (attestation_digest keccak domain data)).2.1 ++
        [(if (ecdsa_sign g xScalar yParity nonce hashToScalar d
          (attestation_digest keccak domain data)).2.2 then 1 else 0) + 27] := rfl
    rw [h1, ← hl, List.drop_left]
    cases hpar : (ecdsa_sign g xScalar yParity nonce hashToScalar d
        (attestation_digest keccak domain data)).2.2
    · left; rfl
    · right; rfl
  · rw [ecdsa_recover_of_sign g xScalar yParity nonce hashToScalar decodePoint d
        (attestation_digest keccak domain data) hk hr hdec]
    rfl

/-- Witness for `sign_attestation_layout_recovery`: the toy instantiation
in `ℚ` with key 2 and a unit nonce; the hypotheses hold by computation. -/
theorem sign_attestation_layout_recovery_witness :
    (sign_attestation (1 : ℚ) id (fun _ => false) (fun _ _ => 1) (fun _ => 1)
        (fun _ => List.replicate 32 0) (fun l => [l.length])
        AttestationDomain.base
        { intent_hash := [], amount := 0, timestamp := 0, payment_id := "",
          data := [] } 2).1.length = 65 ∧
    pubkey_address (fun l => [l.length]) (fun _ : ℚ => List.replicate 64 0)
      (ecdsa_recover (1 : ℚ) (fun _ => (1 : ℚ)) (fun (x : ℚ) (_ : Bool) => x)
        (ecdsa_sign (1 : ℚ) id (fun _ => false) (fun _ _ => 1) (fun _ => 1) 2
          (attestation_digest (fun l => [l.length]) AttestationDomain.base
            { intent_hash := [], amount := 0, timestamp := 0, payment_id := "",
              data := [] })).1
        (ecdsa_sign (1 : ℚ) id (fun _ => false) (fun _ _ => 1) (fun _ => 1) 2
          (attestation_digest (fun l => [l.length]) AttestationDomain.base
            { intent_hash := [], amount := 0, timestamp := 0, payment_id := "",
              data := [] })).2.1
        (ecdsa_sign (1 : ℚ) id (fun _ => false) (fun _ _ => 1) (fun _ => 1) 2
          (attestation_digest (fun l => [l.length]) AttestationDomain.base
            { intent_hash := [], amount := 0, timestamp := 0, payment_id := "",
              data := [] })).2.2
        (attestation_digest (fun l => [l.length]) AttestationDomain.base
          { intent_hash := [], amount := 0, timestamp := 0, payment_id := "",
            data := [] })) =
      witness_address (1 : ℚ) (fun l => [l.length]) (fun _ : ℚ => List.replicate 64 0)
        (2 : ℚ) := by
  have h := sign_attestation_layout_recovery (1 : ℚ) id (fun _ => false)
    (fun _ _ => 1) (fun _ => 1) (fun _ => List.replicate 32 0)
    (fun _ : ℚ => List.replicate 64 0) (fun x _ => x) (fun l => [l.length])
    AttestationDomain.base
    { intent_hash := [], amount := 0, timestamp := 0, payment_id := "", data := [] }
    2 (fun _ => by simp) one_ne_zero (by norm_num) rfl
  exact ⟨h.2.1, h.2.2.2⟩

/-- C9: `domain_separator`, `struct_hash` and `sign_attestation` depend on
nothing beyond their stated inputs — equal domain fields, equal data fields
and an equal key produce identical hashes, digests and signatures (the
RFC 6979 nonce is itself a function of key and digest only). -/
theorem eip712_signing_deterministic {F Point : Type} [Field F] [AddCommGroup Point]
    [Module F Point] (g : Point) (xScalar : Point → F) (yParity : Point → Bool)
    (nonce : F → List Nat → F) (hashToScalar : List Nat → F)
    (scalarBytes : F → List Nat) (keccak : List Nat → List Nat)
    (d1 d2 : AttestationDomain) (a1 a2 : AttestationData) (k1 k2 : F)
    (hname : d1.name = d2.name) (hver : d1.version = d2.version)
    (hcid : d1.chain_id = d2.chain_id)
    (hvc : d1.verifying_contract = d2.verifying_contract)
    (hih : a1.intent_hash = a2.intent_hash) (ham : a1.amount = a2.amount)
    (hts : a1.timestamp = a2.timestamp) (hpid : a1.payment_id = a2.payment_id)
    (hdata : a1.data = a2.data) (hkey : k1 = k2) :
    domain_separator keccak d1 = domain_separator keccak d2 ∧
    struct_hash keccak a1 = struct_hash keccak a2 ∧
    sign_attestation g xScalar yParity nonce hashToScalar scalarBytes keccak d1 a1 k1 =
      sign_attestation g xScalar yParity nonce hashToScalar scalarBytes keccak d2 a2 k2 := by
  obtain ⟨n1, v1, c1, vc1⟩ := d1
  obtain ⟨n2, v2, c2, vc2⟩ := d2
  obtain ⟨i1, m1, t1, p1, b1⟩ := a1
  obtain ⟨i2, m2, t2, p2, b2⟩ := a2
  simp only at hname hver hcid hvc hih ham hts hpid hdata
  subst hname hver hcid hvc hih ham hts hpid hdata hkey
  exact ⟨rfl, rfl, rfl⟩

/-- Witness for `eip712_signing_deterministic`: two runs of the toy
instantiation on equal concrete inputs coincide. -/
theorem eip712_signing_deterministic_witness :
    domain_separator (fun l => [l.length]) (AttestationDomain.new 84532 (List.replicate 20 0)) =
      domain_separator (fun l => [l.length]) (AttestationDomain.new 84532 (List.replicate 20 0)) ∧
    struct_hash (fun l => [l.length])
        { intent_hash := [7], amount := 1, timestamp := 2, payment_id := "p", data := [] } =
      struct_hash (fun l => [l.length])
        { intent_hash := [7], amount := 1, timestamp := 2, payment_id := "p", data := [] } ∧
    sign_attestation (1 : ℚ) id (fun _ => false) (fun _ _ => 1) (fun _ => 1)
        (fun _ => List.replicate 32 0) (fun l => [l.length])
        (AttestationDomain.new 84532 (List.replicate 20 0))
        { intent_hash := [7], amount := 1, timestamp := 2, payment_id := "p", data := [] } 3 =
      sign_attestation (1 : ℚ) id (fun _ => false) (fun _ _ => 1) (fun _ => 1)
        (fun _ => List.replicate 32 0) (fun l => [l.length])
        (AttestationDomain.new 84532 (List.replicate 20 0))
        { intent_hash := [7], amount := 1, timestamp := 2, payment_id := "p", data := [] } 3 :=
  eip712_signing_deterministic (1 : ℚ) id (fun _ => false) (fun _ _ => 1) (fun _ => 1)
    (fun _ => List.replicate 32 0) (fun l => [l.length])
    (AttestationDomain.new 84532 (List.replicate 20 0))
    (AttestationDomain.new 84532 (List.replicate 20 0))
    { intent_hash := [7], amount := 1, timestamp := 2, payment_id := "p", data := [] }
    { intent_hash := [7], amount := 1, timestamp := 2, payment_id := "p", data := [] }
    3 3 rfl rfl rfl rfl rfl rfl rfl rfl rfl rfl
